import Mathlib

/-!
Shallow embedding of `src/executionbackup/main.py` (the `executionbackup`
request router): node health state, liveness probing, request forwarding,
the health sweep, the sticky selector and the per-method dispatch policies.

Network I/O is modelled by explicit outcome parameters: a probe's outcome
(`ProbeOutcome`) stands for what `session.post(... eth_syncing ...)` yields,
and a forward's outcome (`ForwardOutcome`) for what `session.post(url, data)`
yields.  The event dispatcher (`logger.dispatch`, an external collaborator
the spec keeps out of scope and describes as fire-and-forget with no return
value) is modelled as appending the named event to an event trace.
`ujson.dumps`/`ujson.loads` round-tripping of the header dict is modelled by
carrying the headers as a single opaque string.
-/

set_option autoImplicit false

namespace ExecutionBackup

/-- Events emitted through `logger.dispatch`. -/
inductive Event where
  | node_online (url : String)
  | node_offline (url : String)
  | node_router_online
deriving DecidableEq, Repr

/-- Model of `NodeInstance`: one downstream endpoint.  `__init__` stores the url and
sets `self.status = False`.  (The aiohttp session is I/O state with no
bearing on the claims and is not carried.) -/
structure NodeInstance where
  url : String
  status : Bool
deriving DecidableEq, Repr

/-- Model of `NodeInstance.set_online`: no-op if `self.status` is already true,
otherwise sets it and dispatches `node_online` with the url. -/
def set_online (n : NodeInstance) : NodeInstance × List Event :=
  if n.status then (n, [])
  else ({ n with status := true }, [Event.node_online n.url])

/-- Model of `NodeInstance.set_offline`: no-op if `self.status` is already false,
otherwise clears it and dispatches `node_offline` with the url. -/
def set_offline (n : NodeInstance) : NodeInstance × List Event :=
  if n.status then ({ n with status := false }, [Event.node_offline n.url])
  else (n, [])

/-- Outcome of the `eth_syncing` probe POST inside `check_alive`:
either the JSON response arrived and `resp['result']` was truthy or not,
or anything at all went wrong (timeout, connection error, malformed JSON,
missing key) — the bare `except:` treats all of those alike. -/
inductive ProbeOutcome where
  | success (syncingTruthy : Bool)
  | failure
deriving DecidableEq, Repr

/-- Model of `NodeInstance.check_alive`: posts the fixed `eth_syncing` body with a
10s timeout; a truthy `result` or any exception marks the node offline and
returns `False`, otherwise marks it online and returns `True`.  The function
is total: the bare `except:` swallows every exception. -/
def check_alive (n : NodeInstance) (o : ProbeOutcome) :
    NodeInstance × List Event × Bool :=
  match o with
  | ProbeOutcome.success true =>
      let r := set_offline n
      (r.1, r.2, false)
  | ProbeOutcome.success false =>
      let r := set_online n
      (r.1, r.2, true)
  | ProbeOutcome.failure =>
      let r := set_offline n
      (r.1, r.2, false)

/-- Outcome of the forward POST inside `do_request`: either a response
(text body, status code, serialized headers) or one of the listed
aiohttp connectivity exceptions. -/
inductive ForwardOutcome where
  | success (text : String) (stat : Nat) (headers : String)
  | connectionFailure
deriving DecidableEq, Repr

/-- Result value of `do_request`: the `(text, status, headers)` tuple, or a
`ServerOffline()` exception *instance* used as a return value.  The
`serverOffline` constructor carries nothing, exactly as the Python
`ServerOffline` object carries no fields — in particular it is not
subscriptable. -/
inductive DoRequestResult where
  | ok (text : String) (stat : Nat) (headers : String)
  | serverOffline
deriving DecidableEq, Repr

/-- Model of `NodeInstance.do_request`: posts the raw body with a 3s timeout; on a
connectivity-class exception it marks the node offline and returns a
`ServerOffline()` value instead of raising. -/
def do_request (n : NodeInstance) (o : ForwardOutcome) :
    NodeInstance × List Event × DoRequestResult :=
  match o with
  | ForwardOutcome.success t s h => (n, [], DoRequestResult.ok t s h)
  | ForwardOutcome.connectionFailure =>
      let r := set_offline n
      (r.1, r.2, DoRequestResult.serverOffline)

/-- Model of the `NodeRouter` mutable state: the node list (`self.nodes`), the counters
set by `recheck` (`self.alive_count`, `self.dead_count`) and the selector
cursor (`self.index`).  In Python these attributes are first assigned during
`setup`/`recheck`; the model carries them as plain fields. -/
structure NodeRouter where
  nodes : List NodeInstance
  alive_count : Nat
  dead_count : Nat
  index : Nat
deriving DecidableEq, Repr

/-- Result of `NodeRouter.recheck`: the updated router state, the events
dispatched by the probes, and the returned list of alive nodes. -/
structure RecheckResult where
  router : NodeRouter
  events : List Event
  alive : List NodeInstance
deriving DecidableEq, Repr

/-- Model of `NodeRouter.recheck`: gathers `check_alive()` over every node (one probe
outcome per node, supplied in `os`; `asyncio.gather` preserves list order),
sets `alive_count` to the count of `True` results, `dead_count` to
`len(self.nodes) - alive_count`, resets `index` to 0, and returns
`[node for node in self.nodes if node.status]`. -/
def recheck (r : NodeRouter) (os : List ProbeOutcome) : RecheckResult :=
  let checked := (r.nodes.zip os).map (fun p => check_alive p.1 p.2)
  let newNodes := checked.map (fun c => c.1)
  let events := (checked.map (fun c => c.2.1)).flatten
  let results := checked.map (fun c => c.2.2)
  let ac := results.count true
  { router := { nodes := newNodes, alive_count := ac,
                dead_count := newNodes.length - ac, index := 0 },
    events := events,
    alive := newNodes.filter (fun n => n.status) }

/-- Router state right after `setup` has built the `NodeInstance` list and
before the first `recheck`.  In Python the counter and cursor attributes do
not exist yet; `recheck` assigns all of them before anything reads them, so
the model's placeholder zeros are never observed. -/
def initRouter (urls : List String) : NodeRouter :=
  { nodes := urls.map (fun u => { url := u, status := false }),
    alive_count := 0, dead_count := 0, index := 0 }

/-- Model of `NodeRouter.setup`: builds a `NodeInstance` per configured url (each
starting with `status = False`), runs one synchronous `recheck`, then
dispatches `node_router_online`. -/
def setup (urls : List String) (os : List ProbeOutcome) :
    NodeRouter × List Event :=
  let res := recheck (initRouter urls) os
  (res.router, res.events ++ [Event.node_router_online])

/-- Python runtime errors the router code can raise.  `outOfAliveNodes` is
the `OutOfAliveNodes` raised by `get_execution_node`; `recursionError` is
the `RecursionError` Python raises when `get_execution_node`'s unbounded
self-recursion never finds an alive node (modelled as fuel exhaustion);
`typeError` is the `TypeError` from subscripting a `ServerOffline` instance
(`r[1]`); `attributeError` is the `AttributeError` from accessing the
undefined `self.get_alive_node`; `indexError` is `self.nodes[self.index]`
out of range. -/
inductive PyError where
  | outOfAliveNodes
  | recursionError
  | typeError
  | attributeError
  | indexError
deriving DecidableEq, Repr

/-- Model of `NodeRouter.get_execution_node`: raise `OutOfAliveNodes` if
`alive_count == 0`; wrap the cursor to 0 when it walked past the end; take
`nodes[index]`; if it is not alive, advance the cursor and recurse,
otherwise return it without advancing.  The Python recursion is unbounded;
`fuel` bounds it in the model, with exhaustion standing for the
`RecursionError` Python eventually raises. -/
def get_execution_node : Nat → NodeRouter → Except PyError (NodeInstance × NodeRouter)
  | 0, _ => Except.error PyError.recursionError
  | fuel+1, r =>
    if r.alive_count = 0 then Except.error PyError.outOfAliveNodes
    else
      let r1 := if r.nodes.length ≤ r.index then { r with index := 0 } else r
      match r1.nodes.get? r1.index with
      | none => Except.error PyError.indexError
      | some node =>
        if node.status then Except.ok (node, r1)
        else get_execution_node fuel { r1 with index := r1.index + 1 }

/-- Status flag of the node at position `j`, used to express the broadcast
comprehension's `node.status` filter positionally (Python's `node != n` is
object identity, i.e. list position, since `NodeInstance` defines no
`__eq__`). -/
def statusAt (l : List NodeInstance) (j : Nat) : Bool :=
  match l.get? j with
  | some n => n.status
  | none => false

/-- The response sent to the caller: `req.respond(status=r[1],
headers=loads(r[2]))` followed by `resp.send(r[0])`. -/
structure SentResponse where
  stat : Nat
  headers : String
  body : String
deriving DecidableEq, Repr

/-- Observable trace of one `route`/`do_engine_route` call: the router state
when the call returns or raises, the events dispatched along the way, the
positions of the nodes given fire-and-forget `do_request` tasks (never
awaited — their outcomes are not inputs of the call), and either the
response sent to the caller or the Python error raised. -/
structure RouteTrace where
  router : NodeRouter
  events : List Event
  broadcastTargets : List Nat
  outcome : Except PyError SentResponse
deriving Repr

/-- Model of `NodeRouter.route`: for `engine_forkchoiceUpdatedV1`, select a node,
forward synchronously, create non-awaited `do_request` tasks for every other
node whose `status` is true (evaluated after the primary forward), then
respond with the primary result — subscripting it raises `TypeError` if it
is a `ServerOffline` instance.  For every other method, select a node,
forward, and if the result is `ServerOffline` the `isinstance` branch first
evaluates `r[1]`, raising `TypeError` before any response is sent (the
`dumps({'error': 'no upstream nodes'})` send on the next line is
unreachable); otherwise relay text/status/headers verbatim. -/
def route (fuel : Nat) (router : NodeRouter) (method : String) (out : ForwardOutcome) :
    RouteTrace :=
  if method = "engine_forkchoiceUpdatedV1" then
    match get_execution_node fuel router with
    | Except.error e => ⟨router, [], [], Except.error e⟩
    | Except.ok (n, r1) =>
      let d := do_request n out
      let r2 : NodeRouter := { r1 with nodes := r1.nodes.set r1.index d.1 }
      let targets := (List.range r2.nodes.length).filter
          (fun j => statusAt r2.nodes j && (j != r1.index))
      match d.2.2 with
      | DoRequestResult.serverOffline =>
          ⟨r2, d.2.1, targets, Except.error PyError.typeError⟩
      | DoRequestResult.ok t s h =>
          ⟨r2, d.2.1, targets, Except.ok ⟨s, h, t⟩⟩
  else
    match get_execution_node fuel router with
    | Except.error e => ⟨router, [], [], Except.error e⟩
    | Except.ok (n, r1) =>
      let d := do_request n out
      let r2 : NodeRouter := { r1 with nodes := r1.nodes.set r1.index d.1 }
      match d.2.2 with
      | DoRequestResult.serverOffline =>
          ⟨r2, d.2.1, [], Except.error PyError.typeError⟩
      | DoRequestResult.ok t s h =>
          ⟨r2, d.2.1, [], Except.ok ⟨s, h, t⟩⟩

/-- Model of `NodeRouter.do_engine_route`: for `engine_getPayloadV1` the code
evaluates `self.get_alive_node` — an attribute never defined anywhere on
`NodeRouter` (the comment marks it `old code`) — so Python raises
`AttributeError` before any node is contacted; every other method is handed
to `route`. -/
def do_engine_route (fuel : Nat) (router : NodeRouter) (method : String)
    (out : ForwardOutcome) : RouteTrace :=
  if method = "engine_getPayloadV1" then
    ⟨router, [], [], Except.error PyError.attributeError⟩
  else route fuel router method out

/-- The result of the `(k+1)`-th call in a sequence of repeated
`get_execution_node()` calls, each starting from the state the previous call
left behind. -/
def nextCalls (fuel : Nat) : Nat → NodeRouter → Except PyError (NodeInstance × NodeRouter)
  | 0, r => get_execution_node fuel r
  | k+1, r =>
    match get_execution_node fuel r with
    | Except.error e => Except.error e
    | Except.ok (_, r1) => nextCalls fuel k r1

/-- A probe "succeeded with a non-truthy `eth_syncing` result": the health
verdict the spec associates with a probe outcome. -/
def probeHealthy : ProbeOutcome → Bool
  | ProbeOutcome.success b => !b
  | ProbeOutcome.failure => false

/-- Positions of the nodes whose `status` flag is true. -/
def aliveIndices (l : List NodeInstance) : List Nat :=
  (List.range l.length).filter (fun j => statusAt l j)

/- Concrete fixtures used by witnesses and counterexamples. -/

/-- A single node with its alive flag down. -/
def staleNode : NodeInstance := { url := "http://a", status := false }

/-- Router holding one dead node while the counter from the last sweep still
says one node is alive — the state reached when a forward failure marks the
last node offline between sweeps. -/
def staleRouter (i : Nat) : NodeRouter :=
  { nodes := [staleNode], alive_count := 1, dead_count := 0, index := i }

/-- Router with one dead node and a counter of zero (post-sweep view). -/
def routerZero : NodeRouter :=
  { nodes := [staleNode], alive_count := 0, dead_count := 1, index := 0 }

def nodeA : NodeInstance := { url := "http://a", status := true }

def nodeB : NodeInstance := { url := "http://b", status := true }

def nodeC : NodeInstance := { url := "http://c", status := true }

/-- Two alive nodes, cursor at 0, counters from a sweep that saw both up. -/
def routerAB : NodeRouter :=
  { nodes := [nodeA, nodeB], alive_count := 2, dead_count := 0, index := 0 }

/-- State of `routerAB` after node A's alive flag went false (e.g. a failed forward
marked it offline; the counters are untouched by that path). -/
def routerAB_deadA : NodeRouter :=
  { nodes := [{ nodeA with status := false }, nodeB],
    alive_count := 2, dead_count := 0, index := 0 }

/-- State of `routerAB_deadA` with the cursor parked on node B. -/
def routerB1 : NodeRouter :=
  { nodes := [{ nodeA with status := false }, nodeB],
    alive_count := 2, dead_count := 0, index := 1 }

/-- One alive node. -/
def nodeU : NodeInstance := { url := "http://u", status := true }

def router1 : NodeRouter :=
  { nodes := [nodeU], alive_count := 1, dead_count := 0, index := 0 }

/-- Three alive nodes, cursor at 0. -/
def routerABC : NodeRouter :=
  { nodes := [nodeA, nodeB, nodeC], alive_count := 3, dead_count := 0, index := 0 }

/- Helper lemmas about the node-level transitions. -/

theorem set_online_fst (n : NodeInstance) :
    (set_online n).1 = { n with status := true } := by
  cases n with
  | mk u s => cases s <;> simp [set_online]

theorem set_offline_fst (n : NodeInstance) :
    (set_offline n).1 = { n with status := false } := by
  cases n with
  | mk u s => cases s <;> simp [set_offline]

theorem check_alive_fst_status (n : NodeInstance) (o : ProbeOutcome) :
    ((check_alive n o).1).status = probeHealthy o := by
  cases o with
  | success b =>
      cases b <;> simp [check_alive, probeHealthy, set_online_fst, set_offline_fst]
  | failure => simp [check_alive, probeHealthy, set_offline_fst]

theorem check_alive_events_shape (n : NodeInstance) (o : ProbeOutcome) :
    ∀ e ∈ (check_alive n o).2.1, e ≠ Event.node_router_online := by
  intro e he hcontra
  subst hcontra
  cases n with
  | mk u s =>
    cases o with
    | success b =>
        cases b <;> cases s <;> simp [check_alive, set_online, set_offline] at he
    | failure => cases s <;> simp [check_alive, set_offline] at he

/-- Whatever node `get_execution_node` returns is alive, sits at the cursor
position of the returned state, and the selection touched neither the node
list nor the counters (only the cursor may have moved). -/
theorem gen_ok_spec : ∀ (f : Nat) (r r1 : NodeRouter) (n : NodeInstance),
    get_execution_node f r = Except.ok (n, r1) →
    n.status = true ∧ r1.nodes.get? r1.index = some n ∧
    r1.nodes = r.nodes ∧ r1.alive_count = r.alive_count ∧
    r1.dead_count = r.dead_count := by
  intro f
  induction f with
  | zero =>
      intro r r1 n h
      exact absurd h (by simp [get_execution_node])
  | succ f ih =>
    intro r r1 n h
    simp only [get_execution_node] at h
    by_cases hz : r.alive_count = 0
    · rw [if_pos hz] at h; cases h
    · rw [if_neg hz] at h
      by_cases hle : r.nodes.length ≤ r.index
      · rw [if_pos hle] at h
        simp only at h
        rcases hget : r.nodes.get? 0 with _ | node
        · rw [hget] at h; cases h
        · rw [hget] at h
          dsimp only at h
          by_cases hs : node.status = true
          · rw [if_pos hs] at h
            cases h
            exact ⟨hs, by simpa using hget, rfl, rfl, rfl⟩
          · rw [if_neg hs] at h
            have := ih _ _ _ h
            simpa using this
      · rw [if_neg hle] at h
        rcases hget : r.nodes.get? r.index with _ | node
        · rw [hget] at h; cases h
        · rw [hget] at h
          dsimp only at h
          by_cases hs : node.status = true
          · rw [if_pos hs] at h
            cases h
            exact ⟨hs, hget, rfl, rfl, rfl⟩
          · rw [if_neg hs] at h
            have := ih _ _ _ h
            simpa using this

/- Small list facts used below (kept self-contained). -/

theorem get?_some_lt {α : Type _} :
    ∀ (l : List α) (i : Nat) (x : α), l.get? i = some x → i < l.length := by
  intro l
  induction l with
  | nil => intro i x h; cases h
  | cons a l ih =>
    intro i x h
    cases i with
    | zero => simp
    | succ i => exact Nat.succ_lt_succ (ih i x h)

theorem set_get_self {α : Type _} :
    ∀ (l : List α) (i : Nat) (x : α), l.get? i = some x → l.set i x = l := by
  intro l
  induction l with
  | nil => intro i x h; cases h
  | cons a l ih =>
    intro i x h
    cases i with
    | zero =>
      injection h with h
      rw [h]
      rfl
    | succ i =>
      show a :: l.set i x = a :: l
      rw [ih i x h]

theorem get?_set_self {α : Type _} :
    ∀ (l : List α) (i : Nat) (x : α), i < l.length → (l.set i x).get? i = some x := by
  intro l
  induction l with
  | nil => intro i x h; cases h
  | cons a l ih =>
    intro i x h
    cases i with
    | zero => rfl
    | succ i => exact ih i x (Nat.lt_of_succ_lt_succ h)

theorem get?_set_other {α : Type _} :
    ∀ (l : List α) (i j : Nat) (x : α), j ≠ i → (l.set i x).get? j = l.get? j := by
  intro l
  induction l with
  | nil => intro i j x _; rfl
  | cons a l ih =>
    intro i j x hne
    cases i with
    | zero =>
      cases j with
      | zero => exact absurd rfl hne
      | succ j => rfl
    | succ i =>
      cases j with
      | zero => rfl
      | succ j => exact ih i j x (fun hc => hne (by rw [hc]))

theorem filter_and_eq {α : Type _} :
    ∀ (l : List α) (p q : α → Bool),
      l.filter (fun a => p a && q a) = (l.filter p).filter q := by
  intro l p q
  induction l with
  | nil => rfl
  | cons a l ih =>
    by_cases hp : p a = true <;> by_cases hq : q a = true <;>
      simp [List.filter_cons, hp, hq, ih]

theorem filter_bne_of_not_mem :
    ∀ (l : List Nat) (a : Nat), a ∉ l → l.filter (fun j => j != a) = l := by
  intro l a
  induction l with
  | nil => intro _; rfl
  | cons b l ih =>
    intro h
    have hb : b ≠ a := fun hc => h (hc ▸ List.mem_cons_self b l)
    have hl : a ∉ l := fun hc => h (List.mem_cons_of_mem b hc)
    simp [List.filter_cons, hb, ih hl]

theorem filter_bne_length :
    ∀ (l : List Nat) (a : Nat), l.Nodup → a ∈ l →
      (l.filter (fun j => j != a)).length + 1 = l.length := by
  intro l a
  induction l with
  | nil => intro _ h; cases h
  | cons b l ih =>
    intro hnd hmem
    rcases List.mem_cons.mp hmem with rfl | hmem'
    · have hnotin : a ∉ l := (List.nodup_cons.mp hnd).1
      simp [List.filter_cons, filter_bne_of_not_mem l a hnotin]
    · have hnd' := (List.nodup_cons.mp hnd).2
      have hb : b ≠ a := by
        intro hc
        exact (List.nodup_cons.mp hnd).1 (hc ▸ hmem')
      have := ih hnd' hmem'
      simp [List.filter_cons, hb]
      omega

/-- State `staleRouter` makes `get_execution_node` recurse forever: the stale
counter passes the guard but no flag is ever true, so every fuel budget is
exhausted (Python: unbounded recursion until `RecursionError`). -/
theorem staleRouter_loops : ∀ (f i : Nat),
    get_execution_node f (staleRouter i) = Except.error PyError.recursionError := by
  intro f
  induction f with
  | zero => intro i; rfl
  | succ f ih =>
    intro i
    cases i with
    | zero =>
      rw [show get_execution_node (f+1) (staleRouter 0)
            = get_execution_node f (staleRouter 1) from rfl]
      exact ih 1
    | succ j =>
      have hz : ¬(staleRouter (j+1)).alive_count = 0 := by simp [staleRouter]
      have hle : (staleRouter (j+1)).nodes.length ≤ (staleRouter (j+1)).index := by
        simp [staleRouter, staleNode]
      simp only [get_execution_node]
      rw [if_neg hz, if_pos hle]
      dsimp only
      rw [show ((staleRouter (j+1)).nodes.get? 0) = some staleNode from rfl]
      dsimp only
      rw [if_neg (by simp [staleNode] : ¬staleNode.status = true)]
      exact ih 1

/-- Per-position view of the swept node list: position `j` holds the result
of probing the old node at `j` with the `j`-th outcome. -/
theorem recheck_nodes_get? :
    ∀ (nodes : List NodeInstance) (os : List ProbeOutcome) (j : Nat)
      (n : NodeInstance) (o : ProbeOutcome),
      nodes.get? j = some n → os.get? j = some o →
      (((nodes.zip os).map (fun p => check_alive p.1 p.2)).map
          (fun c => c.1)).get? j = some ((check_alive n o).1) := by
  intro nodes
  induction nodes with
  | nil => intro os j n o h _; cases h
  | cons a l ih =>
    intro os j n o hn ho
    cases os with
    | nil => cases ho
    | cons b os =>
      cases j with
      | zero =>
        injection hn with hn
        injection ho with ho
        rw [hn, ho] at *
        rfl
      | succ j => exact ih os j n o hn ho

/-- After a sweep the counters add up to the node count. -/
theorem recheck_counts (r : NodeRouter) (os : List ProbeOutcome) :
    (recheck r os).router.alive_count + (recheck r os).router.dead_count
      = (recheck r os).router.nodes.length := by
  dsimp [recheck]
  have hcount :
      (((r.nodes.zip os).map (fun p => check_alive p.1 p.2)).map
          (fun c => c.2.2)).count true
        ≤ (((r.nodes.zip os).map (fun p => check_alive p.1 p.2)).map
          (fun c => c.1)).length := by
    have h1 := List.count_le_length true
      (((r.nodes.zip os).map (fun p => check_alive p.1 p.2)).map (fun c => c.2.2))
    simpa using h1
  omega

/-- The swept node list keeps its length (one probe outcome per node). -/
theorem recheck_length (r : NodeRouter) (os : List ProbeOutcome)
    (hlen : os.length = r.nodes.length) :
    (recheck r os).router.nodes.length = r.nodes.length := by
  simp [recheck, List.length_zip, hlen]

/-- A sweep only dispatches per-node `node_online`/`node_offline` events,
never `node_router_online`. -/
theorem recheck_events_shape (r : NodeRouter) (os : List ProbeOutcome) :
    ∀ e ∈ (recheck r os).events, e ≠ Event.node_router_online := by
  intro e he
  dsimp [recheck] at he
  rcases List.mem_flatten.mp he with ⟨l, hl, hel⟩
  rcases List.mem_map.mp hl with ⟨c, hc, rfl⟩
  rcases List.mem_map.mp hc with ⟨p, _, rfl⟩
  exact check_alive_events_shape p.1 p.2 e hel

/-- C1: the claim says a request whose selected node's forward fails with a
connectivity-class (offline) result is answered with the synthetic
`no upstream nodes` body instead of raising.  The code instead evaluates
`r[1]` on the `ServerOffline` instance, which raises `TypeError` before any
response is sent: here a 1-node router serving `eth_blockNumber` whose
forward times out ends with a raised `TypeError`, the only dispatched event
being the node's offline transition. -/
theorem C1_offline_fallback_raises :
    (route 1 router1 "eth_blockNumber" ForwardOutcome.connectionFailure).outcome
        = Except.error PyError.typeError
    ∧ (route 1 router1 "eth_blockNumber" ForwardOutcome.connectionFailure).events
        = [Event.node_offline "http://u"]
    ∧ statusAt
        (route 1 router1 "eth_blockNumber" ForwardOutcome.connectionFailure).router.nodes
        0 = false :=
  ⟨rfl, rfl, rfl⟩

/-- C2: the claim says an `engine_getPayloadV1` request is forwarded to a
selector-chosen node and its response returned.  The code calls
`self.get_alive_node()`, an attribute never defined on `NodeRouter`, so
Python raises `AttributeError` before selecting or contacting any node,
for every router state and request. -/
theorem C2_getpayload_attribute_missing (fuel : Nat) (r : NodeRouter)
    (out : ForwardOutcome) :
    do_engine_route fuel r "engine_getPayloadV1" out
      = ⟨r, [], [], Except.error PyError.attributeError⟩ :=
  rfl

/-- C3 (amended): whenever the router's `alive_count` counter is 0, every
`get_execution_node` call terminates at once with `OutOfAliveNodes`; but
when every node's flag is false while the stale counter is positive (as
after a forward failure marked the last node offline), the call never
returns — no fuel budget suffices (Python recurses until `RecursionError`). -/
theorem C3_total_outage :
    (∀ (r : NodeRouter) (f : Nat), r.alive_count = 0 →
        get_execution_node (f+1) r = Except.error PyError.outOfAliveNodes)
    ∧ (∀ (f i : Nat),
        get_execution_node f (staleRouter i) = Except.error PyError.recursionError) := by
  constructor
  · intro r f h
    simp only [get_execution_node]
    rw [if_pos h]
  · exact staleRouter_loops

/-- C3 witness: a router whose counter is 0 fails with `OutOfAliveNodes`. -/
theorem C3_total_outage_witness :
    get_execution_node 1 routerZero = Except.error PyError.outOfAliveNodes :=
  C3_total_outage.1 routerZero 0 rfl

/-- C3 counterexample: in `staleRouter 0` every node's alive flag is false,
yet `get_execution_node` does not fail with `OutOfAliveNodes` — it exhausts
any recursion budget (1000 here), refuting the claim as stated. -/
theorem C3_total_outage_counterexample :
    (staleRouter 0).nodes.filter (fun n => n.status) = []
    ∧ get_execution_node 1000 (staleRouter 0) = Except.error PyError.recursionError :=
  ⟨rfl, staleRouter_loops 1000 0⟩

/-- C5: with nodes `[A(alive), B(alive)]` and cursor 0, every repeated
`get_execution_node` call returns `A` and leaves the state (cursor
included) untouched; once `A`'s flag is false, every repeated call returns
`B` (the first one advancing the cursor to 1, the rest leaving it there). -/
theorem C5_selector_sticky (f k : Nat) :
    nextCalls (f+1) k routerAB = Except.ok (nodeA, routerAB)
    ∧ nextCalls (f+2) k routerAB_deadA = Except.ok (nodeB, routerB1) := by
  have hA : ∀ k, nextCalls (f+1) k routerAB = Except.ok (nodeA, routerAB) := by
    intro k
    induction k with
    | zero => rfl
    | succ k ih =>
      simp only [nextCalls]
      rw [show get_execution_node (f+1) routerAB = Except.ok (nodeA, routerAB) from rfl]
      exact ih
  have hB : ∀ k, nextCalls (f+2) k routerB1 = Except.ok (nodeB, routerB1) := by
    intro k
    induction k with
    | zero => rfl
    | succ k ih =>
      simp only [nextCalls]
      rw [show get_execution_node (f+2) routerB1 = Except.ok (nodeB, routerB1) from rfl]
      exact ih
  refine ⟨hA k, ?_⟩
  cases k with
  | zero => rfl
  | succ k =>
    simp only [nextCalls]
    rw [show get_execution_node (f+2) routerAB_deadA = Except.ok (nodeB, routerB1) from rfl]
    exact hB k

/-- C8: `set_online`/`set_offline` are idempotent — the second call in the
same direction returns the node unchanged and dispatches nothing, the flag
flips at most once, and the event fires exactly once iff the flag flipped. -/
theorem C8_transitions_idempotent (n : NodeInstance) :
    set_online ((set_online n).1) = ((set_online n).1, [])
    ∧ ((set_online n).1).status = true
    ∧ (set_online n).2 = (if n.status then [] else [Event.node_online n.url])
    ∧ set_offline ((set_offline n).1) = ((set_offline n).1, [])
    ∧ ((set_offline n).1).status = false
    ∧ (set_offline n).2 = (if n.status then [Event.node_offline n.url] else []) := by
  cases n with
  | mk u s => cases s <;> simp [set_online, set_offline]

/-- C10: `check_alive` is total over every probe outcome (the bare
`except:` swallows every exception, including malformed responses), and the
boolean it returns always equals the node's alive flag right after the
call. -/
theorem C10_check_alive_total (n : NodeInstance) (o : ProbeOutcome) :
    (check_alive n o).2.2 = ((check_alive n o).1).status := by
  cases n with
  | mk u s =>
    cases o with
    | success b => cases b <;> cases s <;> simp [check_alive, set_online, set_offline]
    | failure => cases s <;> simp [check_alive, set_offline]

/-- C6: after a sweep, `alive_count + dead_count` equals the node count, the
cursor is reset to 0, the node list keeps its length, every node's alive
flag equals whether its probe succeeded with a non-truthy `eth_syncing`
result, and the sweep returns exactly the nodes whose flag is true. -/
theorem C6_recheck_sweep (r : NodeRouter) (os : List ProbeOutcome)
    (hlen : os.length = r.nodes.length) :
    (recheck r os).router.alive_count + (recheck r os).router.dead_count
        = (recheck r os).router.nodes.length
    ∧ (recheck r os).router.index = 0
    ∧ (recheck r os).router.nodes.length = r.nodes.length
    ∧ (∀ (j : Nat) (o : ProbeOutcome), os.get? j = some o →
        ((recheck r os).router.nodes.get? j).map NodeInstance.status
          = some (probeHealthy o))
    ∧ (recheck r os).alive = (recheck r os).router.nodes.filter (fun n => n.status) := by
  refine ⟨recheck_counts r os, rfl, recheck_length r os hlen, ?_, rfl⟩
  intro j o ho
  have hj : j < os.length := get?_some_lt os j o ho
  have hj' : j < r.nodes.length := hlen ▸ hj
  obtain ⟨n0, hn0⟩ : ∃ n0, r.nodes.get? j = some n0 := by
    rcases hxx : r.nodes.get? j with _ | y
    · rw [List.get?_eq_none] at hxx
      omega
    · exact ⟨y, rfl⟩
  have hget := recheck_nodes_get? r.nodes os j n0 o hn0 ho
  dsimp [recheck]
  rw [hget]
  simp [check_alive_fst_status]

/-- C6 witness: a 2-node sweep where the first probe reports synced and the
second probe fails keeps the counters summing to the node count. -/
theorem C6_recheck_sweep_witness :
    (recheck routerAB [ProbeOutcome.success false, ProbeOutcome.failure]).router.alive_count
        + (recheck routerAB [ProbeOutcome.success false, ProbeOutcome.failure]).router.dead_count
      = (recheck routerAB [ProbeOutcome.success false, ProbeOutcome.failure]).router.nodes.length :=
  (C6_recheck_sweep routerAB [ProbeOutcome.success false, ProbeOutcome.failure] rfl).1

/-- C7: `setup` runs one full synchronous sweep and only then dispatches
`node_router_online`: the event trace is exactly the sweep's trace followed
by `node_router_online`, the sweep itself never emits that event, the state
handed to later selections is the post-sweep state, and at emission time
the health counters already cover every node. -/
theorem C7_setup_order (urls : List String) (os : List ProbeOutcome) :
    (setup urls os).2
        = (recheck (initRouter urls) os).events ++ [Event.node_router_online]
    ∧ (setup urls os).1 = (recheck (initRouter urls) os).router
    ∧ (∀ e ∈ (recheck (initRouter urls) os).events, e ≠ Event.node_router_online)
    ∧ (os.length = urls.length →
        (setup urls os).1.alive_count + (setup urls os).1.dead_count
          = (setup urls os).1.nodes.length) := by
  refine ⟨rfl, rfl, recheck_events_shape (initRouter urls) os, ?_⟩
  intro _
  exact recheck_counts (initRouter urls) os

/-- C7 witness: a 1-node setup emits the sweep's offline event first and
`node_router_online` last, with settled counters. -/
theorem C7_setup_order_witness :
    (setup ["http://a"] [ProbeOutcome.failure]).1.alive_count
        + (setup ["http://a"] [ProbeOutcome.failure]).1.dead_count
      = (setup ["http://a"] [ProbeOutcome.failure]).1.nodes.length :=
  (C7_setup_order ["http://a"] [ProbeOutcome.failure]).2.2.2 rfl

/-- C4: on `engine_forkchoiceUpdatedV1`, when the selector yields a node and
its synchronous forward produces a response, that response (status, headers,
body) is what the caller gets; the fire-and-forget forwards go to exactly
the *other* alive nodes — the chosen position is excluded and every alive
position except it is hit, so with `n` alive nodes there are `n - 1`
broadcast forwards.  The broadcast tasks are never awaited: their outcomes
are not inputs of `route`, so they cannot affect the caller's response. -/
theorem C4_forkchoice_broadcast (fuel : Nat) (r r1 : NodeRouter)
    (n : NodeInstance) (t : String) (s : Nat) (hd : String)
    (hsel : get_execution_node fuel r = Except.ok (n, r1)) :
    (route fuel r "engine_forkchoiceUpdatedV1" (ForwardOutcome.success t s hd)).outcome
        = Except.ok { stat := s, headers := hd, body := t }
    ∧ (route fuel r "engine_forkchoiceUpdatedV1" (ForwardOutcome.success t s hd)).broadcastTargets
        = (aliveIndices r.nodes).filter (fun j => j != r1.index)
    ∧ r1.index ∈ aliveIndices r.nodes
    ∧ (route fuel r "engine_forkchoiceUpdatedV1" (ForwardOutcome.success t s hd)).broadcastTargets.length + 1
        = (aliveIndices r.nodes).length
    ∧ r1.index ∉ (route fuel r "engine_forkchoiceUpdatedV1" (ForwardOutcome.success t s hd)).broadcastTargets
    ∧ (route fuel r "engine_forkchoiceUpdatedV1" (ForwardOutcome.success t s hd)).router.nodes
        = r.nodes := by
  obtain ⟨hstat, hget, hnodes, hac, hdc⟩ := gen_ok_spec fuel r r1 n hsel
  have hset : r1.nodes.set r1.index n = r1.nodes := set_get_self _ _ _ hget
  have hget' : r.nodes.get? r1.index = some n := hnodes ▸ hget
  have hidx : r1.index < r.nodes.length := get?_some_lt _ _ _ hget'
  have hroute :
      route fuel r "engine_forkchoiceUpdatedV1" (ForwardOutcome.success t s hd)
        = ⟨{ r1 with nodes := r1.nodes }, [],
           (List.range r.nodes.length).filter
             (fun j => statusAt r.nodes j && (j != r1.index)),
           Except.ok { stat := s, headers := hd, body := t }⟩ := by
    unfold route
    rw [if_pos rfl, hsel]
    dsimp only
    rw [show do_request n (ForwardOutcome.success t s hd)
          = (n, [], DoRequestResult.ok t s hd) from rfl]
    dsimp only
    rw [hset, hnodes]
  have hstatusAt : statusAt r.nodes r1.index = true := by
    unfold statusAt
    rw [hget']
    exact hstat
  have hmem : r1.index ∈ aliveIndices r.nodes := by
    simp only [aliveIndices, List.mem_filter, List.mem_range]
    exact ⟨hidx, hstatusAt⟩
  have htargets :
      (route fuel r "engine_forkchoiceUpdatedV1" (ForwardOutcome.success t s hd)).broadcastTargets
        = (aliveIndices r.nodes).filter (fun j => j != r1.index) := by
    rw [hroute]
    exact filter_and_eq (List.range r.nodes.length)
      (fun j => statusAt r.nodes j) (fun j => j != r1.index)
  have hnodup : (aliveIndices r.nodes).Nodup :=
    (List.nodup_range _).filter _
  refine ⟨by rw [hroute], htargets, hmem, ?_, ?_, ?_⟩
  · rw [htargets]
    exact filter_bne_length (aliveIndices r.nodes) r1.index hnodup hmem
  · rw [htargets]
    simp [List.mem_filter]
  · rw [hroute, hnodes]

/-- C4 witness: three alive nodes, node A chosen — the caller gets A's
response and the broadcast hits the other two alive nodes. -/
theorem C4_forkchoice_broadcast_witness :
    (route 1 routerABC "engine_forkchoiceUpdatedV1"
        (ForwardOutcome.success "resp" 200 "hs")).outcome
      = Except.ok { stat := 200, headers := "hs", body := "resp" }
    ∧ (route 1 routerABC "engine_forkchoiceUpdatedV1"
        (ForwardOutcome.success "resp" 200 "hs")).broadcastTargets.length + 1
      = (aliveIndices routerABC.nodes).length :=
  ⟨(C4_forkchoice_broadcast 1 routerABC routerABC nodeA "resp" 200 "hs" rfl).1,
   (C4_forkchoice_broadcast 1 routerABC routerABC nodeA "resp" 200 "hs" rfl).2.2.2.1⟩

/-- C9: a forward that fails with a connectivity-class error changes only
the targeted node's alive flag: the counters keep their pre-call values and
the cursor keeps its post-selection value, every other node is untouched,
the only dispatched event is the targeted node's offline transition — and
the result is the `ServerOffline`-handling `TypeError`, so the counters can
disagree with the flags until the next sweep. -/
theorem C9_forward_failure_frame (fuel : Nat) (r r1 : NodeRouter)
    (n : NodeInstance) (method : String)
    (hm : ¬ method = "engine_forkchoiceUpdatedV1")
    (hsel : get_execution_node fuel r = Except.ok (n, r1)) :
    (route fuel r method ForwardOutcome.connectionFailure).router.alive_count
        = r.alive_count
    ∧ (route fuel r method ForwardOutcome.connectionFailure).router.dead_count
        = r.dead_count
    ∧ (route fuel r method ForwardOutcome.connectionFailure).router.index
        = r1.index
    ∧ (route fuel r method ForwardOutcome.connectionFailure).router.nodes.get? r1.index
        = some { n with status := false }
    ∧ (∀ j, j ≠ r1.index →
        (route fuel r method ForwardOutcome.connectionFailure).router.nodes.get? j
          = r.nodes.get? j)
    ∧ (route fuel r method ForwardOutcome.connectionFailure).events
        = [Event.node_offline n.url]
    ∧ (route fuel r method ForwardOutcome.connectionFailure).outcome
        = Except.error PyError.typeError := by
  obtain ⟨hstat, hget, hnodes, hac, hdc⟩ := gen_ok_spec fuel r r1 n hsel
  have hidx : r1.index < r1.nodes.length := get?_some_lt _ _ _ hget
  have hdo : do_request n ForwardOutcome.connectionFailure
      = ({ n with status := false }, [Event.node_offline n.url],
         DoRequestResult.serverOffline) := by
    simp [do_request, set_offline, hstat]
  have hroute :
      route fuel r method ForwardOutcome.connectionFailure
        = ⟨{ r1 with nodes := r1.nodes.set r1.index { n with status := false } },
           [Event.node_offline n.url], [], Except.error PyError.typeError⟩ := by
    unfold route
    rw [if_neg hm, hsel]
    dsimp only
    rw [hdo]
  refine ⟨by rw [hroute]; exact hac, by rw [hroute]; exact hdc, by rw [hroute],
          ?_, ?_, by rw [hroute], by rw [hroute]⟩
  · rw [hroute]
    exact get?_set_self r1.nodes r1.index _ hidx
  · intro j hj
    rw [hroute]
    dsimp only
    rw [get?_set_other r1.nodes r1.index j _ hj, hnodes]

/-- C9 witness: the last alive node's forward times out — the counter still
says one node is alive while no node's flag is true. -/
theorem C9_forward_failure_frame_witness :
    (route 1 router1 "eth_blockNumber" ForwardOutcome.connectionFailure).router.alive_count
        = router1.alive_count
    ∧ (route 1 router1 "eth_blockNumber"
        ForwardOutcome.connectionFailure).router.nodes.filter (fun x => x.status) = [] :=
  ⟨(C9_forward_failure_frame 1 router1 router1 nodeU "eth_blockNumber"
      (by decide) rfl).1,
   by decide⟩

end ExecutionBackup
